import Mathlib

/-!
Verification of the adaptive-lighting (ALS) core of this Home Assistant
configuration repository, as a shallow embedding in Lean 4.

Each definition below is translated from a named Python function in the
repository sources (`pyscript/...`); the doc comment of every definition
names the file and function it embeds.  Times of day are modelled as
hour/minute/second triples ordered by their second-of-day value; machine
floats that only ever hold exact decimal values are modelled as `Rat`;
Home Assistant entity reads that may yield "unknown"/"unavailable" are
modelled as `Option` arguments already normalised by the caller.
-/

/-- A time of day, as in Python `datetime.time(h, m, s)`. -/
structure TimeHMS where
  h : Nat
  m : Nat
  s : Nat
  deriving DecidableEq, Repr

/-- Seconds since midnight; Python `time` objects compare by this value. -/
def TimeHMS.toSecs (t : TimeHMS) : Nat := t.h * 3600 + t.m * 60 + t.s

/-- Boolean `<=` on times of day, as Python compares `datetime.time` values. -/
def timeLeb (a b : TimeHMS) : Bool := decide (a.toSecs ≤ b.toSecs)

/-- Embeds `morning_ramp_time_check_fixed` from
`pyscript/test_morning_ramp_time_bug.py` (lines 97-101): the corrected
two-sided morning-window check `04:45 <= t <= 08:00`. -/
def morning_ramp_time_check_fixed (t : TimeHMS) : Bool :=
  timeLeb ⟨4, 45, 0⟩ t && timeLeb t ⟨8, 0, 0⟩

/-- Embeds the time gate of `morning_ramp_first_motion` in
`pyscript/morning_ramp_system.py` (line 170): the production code qualifies
ramp-starting motion with the one-sided test `now.time() >= time(4,45,0)`
(the same shape as `morning_ramp_time_check_broken` in the test file). -/
def morning_ramp_first_motion_time_gate (t : TimeHMS) : Bool :=
  timeLeb ⟨4, 45, 0⟩ t

/-- Lexicographic boolean `>=` on integer pairs, as Python compares the
tuples `(h, m) >= (hh, mm)` in the mode-resolver functions. -/
def pairGeb (x1 y1 x2 y2 : Int) : Bool :=
  x1 > x2 || (x1 == x2 && y1 ≥ y2)

/-- Embeds `_calc_home_mode_new` from `pyscript/test_evening_mode_reason.py`
(lines 72-91): the corrected mode resolver (strict evening gating, no hard
fallback).  `cutoff` is the parsed `HH:MM` prefix of the evening-cutoff
string, `none` when the string is missing or unparseable (the `except`
branch leaves `cutoff_ok = False`).  Note the source compares `(h, 0)`,
not `(h, m)`, against the cutoff: the current minute is not an input of
this function. -/
def calc_home_mode_new (h : Int) (sun dayTh : Rat) (rampActive : Bool)
    (cutoff : Option (Int × Int)) (learned : Rat) (override : Bool)
    (current : String) : String × String :=
  let cutoffOk : Bool :=
    match cutoff with
    | none => false
    | some (hh, mm) => pairGeb h 0 hh mm
  if override || cutoffOk || (decide (h ≥ 15) && decide (sun < learned)) then
    ("Evening", "override/cutoff/afternoon+sun<threshold")
  else if rampActive then
    ("Early Morning", "ramp_active")
  else if sun ≥ dayTh then
    ("Day", "sun>=day_threshold")
  else
    (current, "KEEP_CURRENT (no forced flip)")

/-- C1: the production ramp-qualifying time gate in
`morning_ramp_first_motion` contradicts the repository's own regression
test: the corrected window check `morning_ramp_time_check_fixed` returns
True exactly on `[04:45, 08:00]` (meeting every regression case of the
claim), but the gate actually used by `morning_ramp_first_motion` is the
one-sided `now >= 04:45`, which returns True at the failing input
23:12:00 where the test file demands False. -/
theorem C1_morning_window_bug :
    (∀ t : TimeHMS, morning_ramp_time_check_fixed t = true ↔
      ((⟨4, 45, 0⟩ : TimeHMS).toSecs ≤ t.toSecs ∧
        t.toSecs ≤ (⟨8, 0, 0⟩ : TimeHMS).toSecs)) ∧
    morning_ramp_time_check_fixed ⟨23, 12, 0⟩ = false ∧
    morning_ramp_time_check_fixed ⟨4, 44, 0⟩ = false ∧
    morning_ramp_time_check_fixed ⟨8, 1, 0⟩ = false ∧
    morning_ramp_time_check_fixed ⟨4, 45, 0⟩ = true ∧
    morning_ramp_time_check_fixed ⟨8, 0, 0⟩ = true ∧
    morning_ramp_first_motion_time_gate ⟨23, 12, 0⟩ = true := by
  refine ⟨fun t => ?_, by decide, by decide, by decide, by decide, by decide, by decide⟩
  simp [morning_ramp_time_check_fixed, timeLeb]

/-- C2: in the corrected resolver `_calc_home_mode_new`, starting from
mode Day with the manual evening override off, the clock `(h, m)` before
the evening cutoff, not (hour >= 15 and sun below the learned evening
threshold), the ramp inactive, and sun below the day threshold, the
resulting mode is Day: the state is held unchanged, never defaulting to
Evening. -/
theorem C2_day_mode_held (h m hh mm : Int) (sun dayTh learned : Rat)
    (hm0 : 0 ≤ m)
    (hcut : h < hh ∨ (h = hh ∧ m < mm))
    (hnoon : ¬(h ≥ 15 ∧ sun < learned))
    (hsun : sun < dayTh) :
    calc_home_mode_new h sun dayTh false (some (hh, mm)) learned false "Day"
      = ("Day", "KEEP_CURRENT (no forced flip)") := by
  have hcutoff : pairGeb h 0 hh mm = false := by
    simp only [pairGeb, Bool.or_eq_false_iff, Bool.and_eq_false_iff,
      decide_eq_false_iff_not, beq_eq_false_iff_ne, ne_eq]
    rcases hcut with hlt | ⟨heq, hmlt⟩
    · constructor
      · omega
      · left; omega
    · constructor
      · omega
      · right; omega
  simp only [calc_home_mode_new, hcutoff, Bool.false_or, Bool.or_eq_true,
    Bool.and_eq_true, decide_eq_true_eq]
  rw [if_neg, if_neg, if_neg]
  · exact not_le.mpr hsun
  · simp
  · rintro (⟨h15, hlearn⟩)
    exact hnoon ⟨h15, hlearn⟩

/-- Closed witness for C2 at a concrete morning scenario. -/
theorem C2_day_mode_held_witness :
    calc_home_mode_new 10 5 10 false (some (22, 0)) 4 false "Day"
      = ("Day", "KEEP_CURRENT (no forced flip)") :=
  C2_day_mode_held 10 30 22 0 5 10 4 (by norm_num)
    (Or.inl (by norm_num)) (by norm_num) (by norm_num)

/-- C3 counterexample: at clock time 22:45 with evening cutoff 22:30 the
clock is at-or-after the cutoff, yet `_calc_home_mode_new` resolves Day,
not Evening, because the source compares `(h, 0)` — dropping the current
minute — against the cutoff pair. -/
theorem C3_cutoff_counterexample :
    pairGeb 22 45 22 30 = true ∧
    calc_home_mode_new 22 20 10 false (some (22, 30)) 4 false "Day"
      = ("Day", "sun>=day_threshold") ∧
    ("Day" : String) ≠ "Evening" := by
  refine ⟨by decide, ?_, by decide⟩
  decide

/-- C3 (amended): the resolver compares only the hour with the minute
zeroed: whenever `(h, 0) >= (cutoff_hour, cutoff_minute)` lexicographically,
`_calc_home_mode_new` resolves Evening regardless of all other inputs. -/
theorem C3_cutoff_forces_evening (h hh mm : Int) (sun dayTh learned : Rat)
    (rampActive : Bool) (override : Bool) (current : String)
    (hcut : pairGeb h 0 hh mm = true) :
    (calc_home_mode_new h sun dayTh rampActive (some (hh, mm)) learned
      override current).1 = "Evening" := by
  simp [calc_home_mode_new, hcut]

/-- Closed witness for C3's amended theorem at cutoff 22:00, clock 23:xx. -/
theorem C3_cutoff_forces_evening_witness :
    (calc_home_mode_new 23 20 10 false (some (22, 0)) 4 false "Day").1
      = "Evening" :=
  C3_cutoff_forces_evening 23 22 0 20 10 4 false false "Day" (by decide)

/-- Embeds the sun-bucket calculation of `enhanced_als_teach_room` in
`pyscript/enhanced_sqlite_operations.py` (lines 215-226).  `none` stands
for a sun-elevation value that fails `float(...)` conversion, which the
`except` branch defaults to `High_Sun`. -/
def sunBucket (elevation : Option Rat) : String :=
  match elevation with
  | none => "High_Sun"
  | some e =>
    if e < 0 then "Below_Horizon"
    else if e < 15 then "Low_Sun"
    else if e < 40 then "Mid_Sun"
    else "High_Sun"

/-- Embeds the cloud-bucket calculation of `enhanced_als_teach_room`
(lines 228-233): `int(float(c) // 20 * 20)` clamped to `[0, 100]`; a value
that fails conversion defaults to 0.  Python float floor-division is the
mathematical floor of the quotient, written here with `Rat.floor`. -/
def cloudBucket (coverage : Option Rat) : Int :=
  match coverage with
  | none => 0
  | some c => max 0 (min 100 (⌊c / 20⌋ * 20))

/-- Embeds the condition-key assembly of `enhanced_als_teach_room`
(line 235): `f"{home_mode}_{sun_bucket}_{cloud_bucket}_{season}"`. -/
def conditionKey (mode : String) (elevation coverage : Option Rat)
    (season : String) : String :=
  mode ++ "_" ++ sunBucket elevation ++ "_" ++
    toString (cloudBucket coverage) ++ "_" ++ season

/-- Helper: the cloud bucket for a coverage of 75 percent is 60. -/
theorem cloudBucket_75 : cloudBucket (some 75) = 60 := by
  have hfl : ⌊(75 : ℚ) / 20⌋ = 3 := by
    rw [show ((75 : ℚ)) = ((75 : ℤ) : ℚ) by norm_num,
      show ((20 : ℚ)) = ((20 : ℕ) : ℚ) by norm_num,
      Rat.floor_intCast_div_natCast]
    decide
  rw [show cloudBucket (some 75)
      = max 0 (min 100 (⌊(75 : ℚ) / 20⌋ * 20)) from rfl, hfl]
  norm_num

/-- Helper: the full condition key at the claim's concrete inputs. -/
theorem conditionKey_concrete :
    conditionKey "Day" (some 25) (some 75) "Summer" = "Day_Mid_Sun_60_Summer" := by
  simp only [conditionKey, cloudBucket_75]
  decide

/-- C4 counterexample: encoding mode "Day", elevation 25.0, cloud 75,
season "Summer" yields `"Day_Mid_Sun_60_Summer"` (25.0 < 40 falls in the
`Mid_Sun` bucket by the claim's own bucket rule), not the claimed
`"Day_High_Sun_60_Summer"`. -/
theorem C4_condition_key_counterexample :
    conditionKey "Day" (some 25) (some 75) "Summer" ≠ "Day_High_Sun_60_Summer" := by
  rw [conditionKey_concrete]
  decide

/-- C4 (amended): encoding mode "Day", elevation 25.0, cloud 75, season
"Summer" produces exactly `"Day_Mid_Sun_60_Summer"`, and the bucket rules
hold as stated: elevation below 0 gives Below_Horizon, below 15 Low_Sun,
below 40 Mid_Sun, otherwise High_Sun; the cloud bucket is
`floor(pct/20)*20` clamped to `[0, 100]`. -/
theorem C4_condition_key_encoding :
    conditionKey "Day" (some 25) (some 75) "Summer" = "Day_Mid_Sun_60_Summer" ∧
    sunBucket (some 25) = "Mid_Sun" ∧
    cloudBucket (some 75) = 60 ∧
    (∀ c : Rat, cloudBucket (some c) = max 0 (min 100 (⌊c / 20⌋ * 20))) :=
  ⟨conditionKey_concrete, by decide, cloudBucket_75, fun c => rfl⟩

/-- One stored learning sample: a row of the `adaptive_learning` table
created in `ensure_table_schema` (`pyscript/enhanced_sqlite_operations.py`,
lines 88-99).  Timestamps are seconds on an absolute integer axis. -/
structure Row where
  id : Nat
  room : String
  condition_key : String
  brightness_percent : Int
  temperature_kelvin : Option Int
  timestamp : Int
  deriving DecidableEq, Repr

/-- The `adaptive_learning` table together with its AUTOINCREMENT counter. -/
structure Store where
  rows : List Row
  nextId : Nat
  deriving DecidableEq, Repr

/-- Character-wise embedding of Python `str.lower()` followed by
`.replace(" ", "_")`: a single-character replacement is exactly a map
over the characters. -/
def lowerUnderscore (s : String) : String :=
  ⟨s.data.map fun c => if c.toLower = ' ' then '_' else c.toLower⟩

/-- Embeds the room normalisation of `enhanced_als_teach_room`
(lines 187-188): lowercase, spaces to underscores, "livingroom"
canonicalised to "living_room". -/
def normalizeRoom (room : String) : String :=
  let r := lowerUnderscore room
  if r == "livingroom" then "living_room" else r

/-- Embeds the input validation of `enhanced_als_teach_room`
(lines 145-173): the room must be a non-empty string, brightness must
parse and lie in `[0, 100]`, and the temperature, when supplied, must
parse and lie in `[2000, 7000]`.  `none` for brightness stands for a
missing or unparseable value (both are validation errors in the source);
`none` for temperature stands for the parameter being absent. -/
def teachValidationOk (room : String) (brightness : Option Int)
    (temperature : Option Int) : Bool :=
  !(room.data.all Char.isWhitespace) &&
  (match brightness with
    | none => false
    | some b => decide (0 ≤ b) && decide (b ≤ 100)) &&
  (match temperature with
    | none => true
    | some t => decide (2000 ≤ t) && decide (t ≤ 7000))

/-- Embeds the anti-spam duplicate check of `enhanced_als_teach_room`
(lines 261-267): `SELECT COUNT(*) ... WHERE room = ? AND condition_key = ?
AND timestamp > datetime('now', '-1 minute')` is nonzero. -/
def isRecentDup (st : Store) (now : Int) (room key : String) : Bool :=
  st.rows.any fun r =>
    r.room == room && r.condition_key == key && decide (now - 60 < r.timestamp)

/-- Result statuses returned by the teaching service. -/
inductive TeachStatus where
  | success
  | blocked
  | validationError
  deriving DecidableEq, Repr

/-- Embeds the service `enhanced_als_teach_room` of
`pyscript/enhanced_sqlite_operations.py` (lines 136-343), restricted to
its data behaviour: validate the inputs, derive the condition key from
the environmental readings, suppress a duplicate (room, condition_key)
taught within the last 60 seconds by returning a `blocked` result that
leaves the table untouched, and otherwise insert one new row stamped with
the current time.  Storage-layer failures are modelled separately (see
`safe_database_operation` below). -/
def enhanced_als_teach_room (st : Store) (now : Int) (room : String)
    (brightness temperature : Option Int) (mode : String)
    (elevation coverage : Option Rat) (season : String) :
    TeachStatus × Store :=
  if teachValidationOk room brightness temperature then
    if isRecentDup st now (normalizeRoom room)
        (conditionKey mode elevation coverage season) then
      (.blocked, st)
    else
      (.success,
        { rows := ⟨st.nextId, normalizeRoom room,
            conditionKey mode elevation coverage season,
            brightness.getD 0, temperature, now⟩ :: st.rows,
          nextId := st.nextId + 1 })
  else
    (.validationError, st)

/-- C5: two teach calls with identical room and environmental conditions
(hence identical condition key) issued within 60 seconds: when the first
call inserted a row, the second is suppressed as a duplicate, returning a
`blocked` result and leaving the store unchanged, so exactly one new row
exists afterwards. -/
theorem C5_duplicate_suppressed (st st1 : Store) (now1 now2 : Int)
    (room : String) (brightness temperature : Option Int) (mode : String)
    (elevation coverage : Option Rat) (season : String)
    (hfirst : enhanced_als_teach_room st now1 room brightness temperature
      mode elevation coverage season = (.success, st1))
    (hwithin : now2 < now1 + 60) :
    enhanced_als_teach_room st1 now2 room brightness temperature
        mode elevation coverage season = (.blocked, st1) ∧
    st1.rows.length = st.rows.length + 1 := by
  by_cases hv : teachValidationOk room brightness temperature
  · by_cases hdup : isRecentDup st now1 (normalizeRoom room)
        (conditionKey mode elevation coverage season)
    · exfalso
      simp [enhanced_als_teach_room, hv, hdup] at hfirst
    · have hst1 : st1 =
          { rows := ⟨st.nextId, normalizeRoom room,
              conditionKey mode elevation coverage season,
              brightness.getD 0, temperature, now1⟩ :: st.rows,
            nextId := st.nextId + 1 } := by
        simp only [enhanced_als_teach_room, hv, if_true, hdup,
          Bool.false_eq_true, if_false, ite_true, ite_false,
          Prod.mk.injEq, true_and] at hfirst
        exact hfirst.symm
      subst hst1
      have hdup2 : isRecentDup
          { rows := ⟨st.nextId, normalizeRoom room,
              conditionKey mode elevation coverage season,
              brightness.getD 0, temperature, now1⟩ :: st.rows,
            nextId := st.nextId + 1 }
          now2 (normalizeRoom room)
          (conditionKey mode elevation coverage season) = true := by
        simp only [isRecentDup, List.any_cons, Bool.or_eq_true,
          Bool.and_eq_true, beq_iff_eq, decide_eq_true_eq]
        left
        exact ⟨by simp, by omega⟩
      refine ⟨?_, by simp⟩
      simp [enhanced_als_teach_room, hv, hdup2]
  · exfalso
    simp [enhanced_als_teach_room, hv] at hfirst

/-- Closed witness for C5: teaching the kitchen twice, 30 seconds apart,
under identical conditions. -/
theorem C5_duplicate_suppressed_witness :
    (enhanced_als_teach_room
        ⟨[⟨1, "kitchen", "Night_High_Sun_0_Summer", 70, some 3000, 1000⟩], 2⟩
        1030 "kitchen" (some 70) (some 3000) "Night" none none "Summer"
      = (.blocked,
          ⟨[⟨1, "kitchen", "Night_High_Sun_0_Summer", 70, some 3000, 1000⟩], 2⟩)) ∧
    ([(⟨1, "kitchen", "Night_High_Sun_0_Summer", 70, some 3000, 1000⟩ : Row)]).length
      = ([] : List Row).length + 1 :=
  C5_duplicate_suppressed ⟨[], 1⟩
    ⟨[⟨1, "kitchen", "Night_High_Sun_0_Summer", 70, some 3000, 1000⟩], 2⟩
    1000 1030 "kitchen" (some 70) (some 3000) "Night" none none "Summer"
    (by decide) (by decide)

/-- Result of a delete operation: a success payload carrying the removed
count, or an error message in the returned dictionary. -/
inductive DeleteResult where
  | success (deleted_count : Nat)
  | error (message : String)
  deriving DecidableEq, Repr

/-- Python truthiness of an optional integer id (`if record_id:`). -/
def truthyNat (o : Option Nat) : Bool := o.getD 0 != 0

/-- Python truthiness of an optional string (`if room:`). -/
def truthyStr (o : Option String) : Bool := o.getD "" != ""

/-- Embeds the service `enhanced_delete_learning_data` of
`pyscript/enhanced_sqlite_operations.py` (lines 480-568): requires
`confirm=True`; deletes by record id, else by room and condition key,
else by room; when the selected target matches no stored rows the
transaction is rolled back and an error-status result is returned with
the store unchanged. -/
def enhanced_delete_learning_data (st : Store) (room condition_key : Option String)
    (record_id : Option Nat) (confirm : Bool) : DeleteResult × Store :=
  if !confirm then
    (.error "Deletion requires confirm=True parameter", st)
  else if truthyNat record_id then
    let n := record_id.getD 0
    if st.rows.any fun r => r.id == n then
      (.success (st.rows.countP fun r => r.id == n),
        ⟨st.rows.filter fun r => !(r.id == n), st.nextId⟩)
    else
      (.error ("Record ID " ++ toString n ++ " not found"), st)
  else if truthyStr room && truthyStr condition_key then
    let rn := normalizeRoom (room.getD "")
    let key := condition_key.getD ""
    let cnt := st.rows.countP fun r => r.room == rn && r.condition_key == key
    if cnt > 0 then
      (.success cnt,
        ⟨st.rows.filter fun r => !(r.room == rn && r.condition_key == key),
          st.nextId⟩)
    else
      (.error ("No records found for room '" ++ rn ++ "', condition '"
        ++ key ++ "'"), st)
  else if truthyStr room then
    let rn := normalizeRoom (room.getD "")
    let cnt := st.rows.countP fun r => r.room == rn
    if cnt > 0 then
      (.success cnt, ⟨st.rows.filter fun r => !(r.room == rn), st.nextId⟩)
    else
      (.error ("No records found for room '" ++ rn ++ "'"), st)
  else
    (.error "Must specify record_id, or room (with optional condition_key)", st)

/-- C6 counterexample: deleting record id 1 from an empty store is
reported as an error result ("Record ID 1 not found"), not as a success
with removed-count 0 as the claim states. -/
theorem C6_delete_missing_counterexample :
    (enhanced_delete_learning_data ⟨[], 1⟩ none none (some 1) true).1
        ≠ DeleteResult.success 0 ∧
    (enhanced_delete_learning_data ⟨[], 1⟩ none none (some 1) true).1
        = .error ("Record ID " ++ toString 1 ++ " not found") := by
  constructor
  · decide
  · rfl

/-- C6 (amended): a delete whose target (by id, by room and condition
key, or by room) matches no stored rows deletes nothing and leaves the
store unchanged, but it is reported as an error-status result naming the
missing target — not as a success with removed-count 0; the error is a
returned value, never a raised exception. -/
theorem C6_delete_missing_is_error (st : Store) :
    (∀ n : Nat, n ≠ 0 →
      (st.rows.any fun r => r.id == n) = false →
      enhanced_delete_learning_data st none none (some n) true
        = (.error ("Record ID " ++ toString n ++ " not found"), st)) ∧
    (∀ room key : String, room ≠ "" → key ≠ "" →
      (st.rows.countP fun r =>
        r.room == normalizeRoom room && r.condition_key == key) = 0 →
      enhanced_delete_learning_data st (some room) (some key) none true
        = (.error ("No records found for room '" ++ normalizeRoom room
            ++ "', condition '" ++ key ++ "'"), st)) ∧
    (∀ room : String, room ≠ "" →
      (st.rows.countP fun r => r.room == normalizeRoom room) = 0 →
      enhanced_delete_learning_data st (some room) none none true
        = (.error ("No records found for room '" ++ normalizeRoom room
            ++ "'"), st)) := by
  refine ⟨fun n hn hmiss => ?_, fun room key hr hk hmiss => ?_,
    fun room hr hmiss => ?_⟩
  · simp [enhanced_delete_learning_data, truthyNat, hn, hmiss]
  · simp [enhanced_delete_learning_data, truthyNat, truthyStr, hr, hk, hmiss]
  · simp [enhanced_delete_learning_data, truthyNat, truthyStr, hr, hmiss]

/-- Closed witness for C6's amended theorem on the empty store. -/
theorem C6_delete_missing_is_error_witness :
    (enhanced_delete_learning_data ⟨[], 1⟩ none none (some 5) true
      = (.error ("Record ID " ++ toString 5 ++ " not found"), ⟨[], 1⟩)) ∧
    (enhanced_delete_learning_data ⟨[], 1⟩ (some "kitchen")
        (some "Night_High_Sun_0_Summer") none true
      = (.error ("No records found for room '" ++ normalizeRoom "kitchen"
          ++ "', condition '" ++ "Night_High_Sun_0_Summer" ++ "'"), ⟨[], 1⟩)) ∧
    (enhanced_delete_learning_data ⟨[], 1⟩ (some "kitchen") none none true
      = (.error ("No records found for room '" ++ normalizeRoom "kitchen"
          ++ "'"), ⟨[], 1⟩)) :=
  ⟨(C6_delete_missing_is_error ⟨[], 1⟩).1 5 (by decide) rfl,
    (C6_delete_missing_is_error ⟨[], 1⟩).2.1 "kitchen" "Night_High_Sun_0_Summer"
      (by decide) (by decide) rfl,
    (C6_delete_missing_is_error ⟨[], 1⟩).2.2 "kitchen" (by decide) rfl⟩

/-- Embeds `_calculate_morning_transition_time` of
`pyscript/central_timing_service.py` (lines 243-278), with times as
minutes from midnight of `target_date` on an integer axis:
transition = sunrise + buffer (60 workday / 90 off-day, plus the seasonal
timing adjustment), then clamped to [06:00, 08:30] on workdays and
[07:00, 10:00] on off-days via `max(min_time, min(max_time, t))`. -/
def calculate_morning_transition_time (sunriseMin : Int) (is_workday : Bool)
    (timingAdjustment : Int) : Int :=
  let base_buffer : Int := if is_workday then 60 else 90
  let total_buffer := base_buffer + timingAdjustment
  let transition := sunriseMin + total_buffer
  let min_time : Int := if is_workday then 360 else 420
  let max_time : Int := if is_workday then 510 else 600
  max min_time (min max_time transition)

/-- Embeds the `except` branch of `_calculate_morning_transition_time`
(lines 280-284): on an internal error the result falls back to 07:30 on
workdays and 08:30 on off-days. -/
def morning_transition_error_fallback (is_workday : Bool) : Int :=
  if is_workday then 450 else 510

/-- The fields of interest of `_get_fallback_schedule`
(`pyscript/central_timing_service.py`, lines 348-377): the hardcoded safe
schedule returned whenever `calculate_daily_schedule` hits any error:
workday true, sunrise 06:30, transition 07:30. -/
structure FallbackSchedule where
  is_workday : Bool
  sunriseMin : Int
  transitionMin : Int
  deriving DecidableEq, Repr

/-- Embeds `_get_fallback_schedule` (restricted to the timing fields). -/
def get_fallback_schedule : FallbackSchedule :=
  ⟨true, 390, 450⟩

/-- C7: for every sunrise time and seasonal adjustment, the workday
morning transition time is clamped into [06:00, 08:30] (minutes 360 to
510) of the target date; the internal-error fallback (07:30) and the
hardcoded fallback schedule (workday, 07:30) also lie in that window, so
the calculation — which is total here, mirroring the source's catch-all
`except` branches that never re-raise — always lands in bounds. -/
theorem C7_workday_transition_bounds :
    (∀ sunriseMin timingAdjustment : Int,
      360 ≤ calculate_morning_transition_time sunriseMin true timingAdjustment ∧
      calculate_morning_transition_time sunriseMin true timingAdjustment ≤ 510) ∧
    morning_transition_error_fallback true = 450 ∧
    get_fallback_schedule.is_workday = true ∧
    get_fallback_schedule.transitionMin = 450 ∧
    (360 : Int) ≤ 450 ∧ (450 : Int) ≤ 510 := by
  refine ⟨fun s a => ⟨?_, ?_⟩, rfl, rfl, rfl, by norm_num, by norm_num⟩
  · exact le_max_left _ _
  · exact max_le (by norm_num) (min_le_left _ _)

/-- Outcome of one attempt of a wrapped database operation, as classified
by the `except` clauses of `safe_database_operation`
(`pyscript/sqlite_failsafe_mechanisms.py`, lines 222-256): success, an
`sqlite3.OperationalError` (locked or not), another `sqlite3.Error`, or
any other exception. -/
inductive DbOutcome (α : Type) where
  | ok (a : α)
  | opErr (locked : Bool)
  | sqliteErr
  | otherErr

/-- Recursive body of `safe_database_operation`: `fuel` counts the
remaining loop iterations of `for attempt in range(max_retries)` and
`attempt` the current index.  The returned list records the `time.sleep`
delays in milliseconds: only a "locked" operational error before the last
attempt sleeps `(2 ** attempt) * 0.5` seconds and retries; every other
failure leaves the loop (the `sqlite3.Error` recovery path on the final
attempt issues `continue`, but the loop is exhausted, so it too falls
through) and the fallback result is returned.  The circuit breaker wrapped
around the call is modelled in its initial CLOSED state, in which it is a
transparent pass-through. -/
def safeDbGo {α : Type} (op : Nat → DbOutcome α) (fallback : α)
    (maxRetries : Nat) : Nat → Nat → α × List Nat
  | 0, _ => (fallback, [])
  | fuel + 1, attempt =>
    match op attempt with
    | .ok a => (a, [])
    | .opErr locked =>
      if locked && decide (attempt + 1 < maxRetries) then
        let rest := safeDbGo op fallback maxRetries fuel (attempt + 1)
        (rest.1, (500 * 2 ^ attempt) :: rest.2)
      else
        (fallback, [])
    | .sqliteErr => (fallback, [])
    | .otherErr => (fallback, [])

/-- Embeds `safe_database_operation` of
`pyscript/sqlite_failsafe_mechanisms.py` (lines 222-256) with its default
`max_retries=3`, returning the operation's (or fallback) result together
with the list of backoff delays slept, in milliseconds. -/
def safe_database_operation {α : Type} (op : Nat → DbOutcome α)
    (fallback : α) : α × List Nat :=
  safeDbGo op fallback 3 3 0

/-- Outcome of one connection attempt inside
`get_enhanced_db_connection` (`pyscript/enhanced_sqlite_operations.py`,
lines 17-79): success, a locked `sqlite3.OperationalError`, another
operational error, a file-access error (`FileNotFoundError` /
`PermissionError`), or any other exception. -/
inductive ConnOutcome where
  | ok
  | lockedErr
  | opErr
  | fileErr
  | otherErr

/-- The error classes `get_enhanced_db_connection` raises to its caller. -/
inductive ConnError where
  | operational
  | fileAccess
  | unexpected
  deriving DecidableEq, Repr

/-- Recursive body of `get_enhanced_db_connection`: `delayMs` carries the
mutable `retry_delay` (initially 1.0 s), multiplied by 1.5 after every
sleep.  A locked operational error before the last attempt sleeps and
retries; a non-locked operational error, or locked on the last attempt,
re-raises; a file-access error always re-raises immediately; any other
exception before the last attempt also sleeps and retries (sharing the
same growing delay), and re-raises on the last attempt. -/
def connGo (op : Nat → ConnOutcome) (maxRetries : Nat) :
    Nat → Nat → Nat → Except ConnError Unit × List Nat
  | 0, _, _ => (.error .operational, [])
  | fuel + 1, attempt, delayMs =>
    match op attempt with
    | .ok => (.ok (), [])
    | .lockedErr =>
      if decide (attempt + 1 < maxRetries) then
        let rest := connGo op maxRetries fuel (attempt + 1) (delayMs * 3 / 2)
        (rest.1, delayMs :: rest.2)
      else
        (.error .operational, [])
    | .opErr => (.error .operational, [])
    | .fileErr => (.error .fileAccess, [])
    | .otherErr =>
      if decide (attempt + 1 < maxRetries) then
        let rest := connGo op maxRetries fuel (attempt + 1) (delayMs * 3 / 2)
        (rest.1, delayMs :: rest.2)
      else
        (.error .unexpected, [])

/-- Embeds `get_enhanced_db_connection` with its defaults `max_retries=3`,
`retry_delay=1.0`; the result is the raised error or success, with the
list of backoff delays slept, in milliseconds. -/
def get_enhanced_db_connection (op : Nat → ConnOutcome) :
    Except ConnError Unit × List Nat :=
  connGo op 3 3 0 1000

/-- C8 counterexample: against a permanently locked store,
`safe_database_operation` sleeps 0.5 s and then 1.0 s between its three
attempts (factor 2 backoff, two inter-attempt delays) — not the claimed
0.5 s, 0.75 s, 1.125 s sequence; `get_enhanced_db_connection` likewise
sleeps 1.0 s then 1.5 s. -/
theorem C8_backoff_counterexample :
    (safe_database_operation (fun _ => DbOutcome.opErr true) (0 : Nat)).2
        = [500, 1000] ∧
    ([500, 1000] : List Nat) ≠ [500, 750, 1125] ∧
    (get_enhanced_db_connection fun _ => ConnOutcome.lockedErr).2
        = [1000, 1500] ∧
    ([1000, 1500] : List Nat) ≠ [500, 750, 1125] := by
  refine ⟨rfl, by decide, rfl, by decide⟩

/-- C8 (amended): storage retries are bounded by 3 attempts.  In
`safe_database_operation` only "locked" operational errors are retried,
with backoff delays of 0.5 s then 1.0 s; any other storage error ends the
loop at once and the caller-supplied fallback result is returned in place
of the exception (errors do not propagate from this wrapper).  In
`get_enhanced_db_connection` locked errors and unexpected generic errors
are retried with backoff delays of 1.0 s then 1.5 s, while non-locked
operational errors and file-access errors propagate immediately to the
caller, and a still-locked final attempt propagates an operational
error. -/
theorem C8_retry_behaviour :
    (∀ fallback : Nat,
      safe_database_operation (fun _ => DbOutcome.opErr true) fallback
        = (fallback, [500, 1000])) ∧
    (∀ fallback : Nat,
      safe_database_operation (fun _ => DbOutcome.opErr false) fallback
        = (fallback, [])) ∧
    (∀ fallback : Nat,
      safe_database_operation (fun _ => DbOutcome.sqliteErr) fallback
        = (fallback, [])) ∧
    (∀ fallback : Nat,
      safe_database_operation (fun _ => DbOutcome.otherErr) fallback
        = (fallback, [])) ∧
    (∀ fallback : Nat, ∀ v : Nat,
      safe_database_operation
        (fun n => if n = 0 then DbOutcome.opErr true else DbOutcome.ok v)
        fallback = (v, [500])) ∧
    (get_enhanced_db_connection fun _ => ConnOutcome.lockedErr)
        = (.error .operational, [1000, 1500]) ∧
    (get_enhanced_db_connection fun _ => ConnOutcome.opErr)
        = (.error .operational, []) ∧
    (get_enhanced_db_connection fun _ => ConnOutcome.fileErr)
        = (.error .fileAccess, []) ∧
    (get_enhanced_db_connection fun _ => ConnOutcome.otherErr)
        = (.error .unexpected, [1000, 1500]) ∧
    (get_enhanced_db_connection fun n =>
        if n = 0 then ConnOutcome.lockedErr else ConnOutcome.ok)
        = (.ok (), [1000]) :=
  ⟨fun _ => rfl, fun _ => rfl, fun _ => rfl, fun _ => rfl,
    fun _ _ => rfl, rfl, rfl, rfl, rfl, rfl⟩

/-- Entity names used by `pyscript/kitchen_motion.py`. -/
def SINK_PRESET : String := "select.sink_wled_preset"

/-- Entity name of the fridge WLED preset select. -/
def FRIDGE_PRESET : String := "select.frig_strip_preset"

/-- Entity name of the kitchen main lights. -/
def KITCHEN_MAIN : String := "light.kitchen_main_lights"

/-- `ALLOWED_MODES` of `pyscript/kitchen_motion.py` (line 29). -/
def ALLOWED_MODES : List String := ["Day", "Evening", "Night", "Early Morning"]

/-- `TEST_BYPASS_MODE` of `pyscript/kitchen_motion.py` (line 33). -/
def TEST_BYPASS_MODE : Bool := false

/-- A Home Assistant service call emitted by the kitchen motion handler. -/
inductive KCall where
  | setPreset (entity option : String)
  | lightOn (entity : String) (brightness : Int)
  | lightOff (entity : String)
  deriving DecidableEq, Repr

/-- Embeds the `active` branch of `_apply_for_motion` in
`pyscript/kitchen_motion.py` (lines 86-119), returning the list of
service calls emitted in order.  `hs` is the (already defaulted) home
state, `now` the current clock time, `targetBrightness` the parsed value
of `sensor.kitchen_target_brightness` (`none` when the sensor is absent,
defaulted to 30).  In Day mode the WLED presets are skipped; in Night
mode the main lights are blocked unless the time is at or after 04:45;
the brightness is clamped by `max(1, min(100, int(target)))`. -/
def apply_for_motion_active (hs : String) (now : TimeHMS)
    (targetBrightness : Option Int) : List KCall :=
  if !TEST_BYPASS_MODE && !(ALLOWED_MODES.contains hs) then
    []
  else
    let wled : List KCall :=
      if hs ≠ "Day" then
        [.setPreset SINK_PRESET "night-100", .setPreset FRIDGE_PRESET "night-100"]
      else
        []
    let night_block_lifted : Bool :=
      hs == "Night" && timeLeb ⟨4, 45, 0⟩ now
    let mains : List KCall :=
      if hs ≠ "Night" || night_block_lifted then
        let tb := targetBrightness.getD 30
        [.lightOn KITCHEN_MAIN (max 1 (min 100 tb))]
      else
        []
    wled ++ mains

/-- C9: processing a kitchen motion-active event in home state Night, a
main-light turn-on call is emitted iff the clock is at or after 04:45,
any emitted main-light brightness is clamped into [1, 100], and before
04:45 the emitted calls are exactly the two WLED preset calls. -/
theorem C9_kitchen_night_motion (now : TimeHMS) (targetBrightness : Option Int) :
    ((∃ b, KCall.lightOn KITCHEN_MAIN b
        ∈ apply_for_motion_active "Night" now targetBrightness) ↔
      timeLeb ⟨4, 45, 0⟩ now = true) ∧
    (∀ e b, KCall.lightOn e b ∈ apply_for_motion_active "Night" now targetBrightness →
      1 ≤ b ∧ b ≤ 100) ∧
    (timeLeb ⟨4, 45, 0⟩ now = false →
      apply_for_motion_active "Night" now targetBrightness
        = [.setPreset SINK_PRESET "night-100",
            .setPreset FRIDGE_PRESET "night-100"]) := by
  by_cases hlift : timeLeb ⟨4, 45, 0⟩ now = true
  · have hlist : apply_for_motion_active "Night" now targetBrightness
        = [.setPreset SINK_PRESET "night-100",
            .setPreset FRIDGE_PRESET "night-100",
            .lightOn KITCHEN_MAIN (max 1 (min 100 (targetBrightness.getD 30)))] := by
      simp only [apply_for_motion_active]
      rw [hlift]
      rfl
    refine ⟨⟨fun _ => hlift, fun _ => ?_⟩, fun e b hmem => ?_, fun hcon => ?_⟩
    · exact ⟨max 1 (min 100 (targetBrightness.getD 30)), by rw [hlist]; simp⟩
    · rw [hlist] at hmem
      simp only [List.mem_cons, List.not_mem_nil, or_false] at hmem
      rcases hmem with h | h | h
      · exact absurd h (by simp)
      · exact absurd h (by simp)
      · simp only [KCall.lightOn.injEq] at h
        rcases h with ⟨-, hb⟩
        subst hb
        exact ⟨le_max_left _ _, max_le (by norm_num) (min_le_left _ _)⟩
    · rw [hcon] at hlift
      exact absurd hlift (by simp)
  · have hc : timeLeb ⟨4, 45, 0⟩ now = false := by
      revert hlift
      cases timeLeb ⟨4, 45, 0⟩ now <;> simp
    have hlist : apply_for_motion_active "Night" now targetBrightness
        = [.setPreset SINK_PRESET "night-100",
            .setPreset FRIDGE_PRESET "night-100"] := by
      simp only [apply_for_motion_active]
      rw [hc]
      rfl
    refine ⟨⟨fun hex => ?_, fun h => absurd h (by simp [hc])⟩,
      fun e b hmem => ?_, fun _ => hlist⟩
    · rcases hex with ⟨b, hb⟩
      rw [hlist] at hb
      simp at hb
    · rw [hlist] at hmem
      simp at hmem

/-- Embeds `_to_int` of `pyscript/morning_ramp_system.py` (lines 15-17)
on an already-parsed value: `none` stands for a missing or unparseable
helper reading, which falls back to the default. -/
def to_int (v : Option Int) (d : Int) : Int := v.getD d

/-- The ramp-session fields written by `RampController.start_ramp`. -/
structure RampStart where
  duration : Int
  startTimeMin : Int
  endTimeMin : Int
  deriving DecidableEq, Repr

/-- Embeds the timing logic of `RampController.start_ramp` in
`pyscript/morning_ramp_system.py` (lines 96-116): the base duration is
read from the workday helper (default 50) or off-day helper (default 75)
depending on `binary_sensor.working_today`; the duration is clamped by
`max(15, min(120, base))`; the start time is the motion time and the
calculated end time is the motion time plus the clamped duration
(minutes on an absolute integer axis). -/
def start_ramp (motionMin : Int) (workday : Bool)
    (workdayBase offdayBase : Option Int) : RampStart :=
  let base := if workday then to_int workdayBase 50 else to_int offdayBase 75
  let duration := max 15 (min 120 base)
  ⟨duration, motionMin, motionMin + duration⟩

/-- C10: whatever the helper entities supply for the base duration
(including missing or malformed values), the ramp duration is clamped
into [15, 120] minutes and the calculated end time is the motion time
plus that clamped duration. -/
theorem C10_ramp_duration_clamped (motionMin : Int) (workday : Bool)
    (workdayBase offdayBase : Option Int) :
    15 ≤ (start_ramp motionMin workday workdayBase offdayBase).duration ∧
    (start_ramp motionMin workday workdayBase offdayBase).duration ≤ 120 ∧
    (start_ramp motionMin workday workdayBase offdayBase).endTimeMin
      = motionMin +
        (start_ramp motionMin workday workdayBase offdayBase).duration := by
  refine ⟨le_max_left _ _, max_le (by norm_num) (min_le_left _ _), rfl⟩

/-- Closed witness for C9: at 03:00 only the WLED presets are set; at
05:00 a main-light call exists. -/
theorem C9_kitchen_night_motion_witness :
    (apply_for_motion_active "Night" ⟨3, 0, 0⟩ (some 250)
      = [.setPreset SINK_PRESET "night-100",
          .setPreset FRIDGE_PRESET "night-100"]) ∧
    (∃ b, KCall.lightOn KITCHEN_MAIN b
      ∈ apply_for_motion_active "Night" ⟨5, 0, 0⟩ (some 250)) :=
  ⟨(C9_kitchen_night_motion ⟨3, 0, 0⟩ (some 250)).2.2 (by decide),
    (C9_kitchen_night_motion ⟨5, 0, 0⟩ (some 250)).1.mpr (by decide)⟩
